import Mathlib

/-!
Verification development for the ai-chat-portal backend (Django application).

The definitions below are shallow embeddings of the Python source:
  - `sanitize_input` embeds `conversations/utils/helpers.py`,
  - `extract_topics` and `analyze` embed `conversations/services/analysis_service.py`,
  - `chat` embeds `conversations/services/ai_service.py` (`LMStudioService.chat`),
  - `messageCreate` / `send_message` / `update_conversation_sentiment` embed the
    persistence pipeline of `conversations/models.py` and
    `conversations/views.py` (`ConversationViewSet.send_message`).

Python strings are modelled as `List Char`, Python floats as `ℚ`, wall-clock
timestamps as a `Nat` counter that advances at every `timezone.now()` call,
and the HTTP layer as an explicit outcome datatype fed to the pure handlers.
-/

namespace ChatPortal

/-- Python `str.isspace`-style whitespace set used by `str.strip()` (space,
tab, newline, carriage return, vertical tab, form feed). -/
def pyIsSpace (c : Char) : Bool :=
  c = ' ' || c.toNat = 9 || c.toNat = 10 || c.toNat = 13 || c.toNat = 11 || c.toNat = 12

/-- Python `text.strip()`: drop leading and trailing whitespace. -/
def pyStrip (s : List Char) : List Char :=
  ((s.dropWhile pyIsSpace).reverse.dropWhile pyIsSpace).reverse

/-- Python `text.strip()` on a Lean `String`. -/
def pyStripStr (s : String) : String :=
  String.mk (pyStrip s.toList)

/-- Python `text.lower()` (ASCII-level model). -/
def pyLower (s : List Char) : List Char :=
  s.map Char.toLower

/-- Model of an arbitrary Python value passed where a `str` is expected:
either an actual string or some non-string value. -/
inductive PyValue where
  | str (s : List Char)
  | nonStr
deriving DecidableEq

/-- Embedding of `sanitize_input` from `conversations/utils/helpers.py`:
non-strings become `""`; strings are stripped, then `'\x00'` characters are
removed, then the result is cut to `max_length` characters. -/
def sanitize_input (v : PyValue) (max_length : Nat) : List Char :=
  match v with
  | .nonStr => []
  | .str t =>
    let t1 := pyStrip t
    let t2 := t1.filter (fun c => c.toNat ≠ 0)
    if t2.length > max_length then t2.take max_length else t2

/-- Whether a (modelled) Python string ends with a whitespace character. -/
def endsWithSpace (s : List Char) : Bool :=
  match s.getLast? with
  | some c => pyIsSpace c
  | none => false

/-- Whether `pre` is a leading segment of `s` (model of Python prefix test
used to implement substring search). -/
def leadsWith : List Char → List Char → Bool
  | [], _ => true
  | _ :: _, [] => false
  | a :: as, b :: bs => a = b && leadsWith as bs

/-- Python's `needle in hay` substring test on strings. -/
def containsSub (hay needle : List Char) : Bool :=
  match hay with
  | [] => leadsWith needle []
  | c :: t => leadsWith needle (c :: t) || containsSub t needle

/-- Python `str.capitalize()`: first character upper-cased, rest lower-cased. -/
def pyCapitalize (s : String) : String :=
  match s.toList with
  | [] => ""
  | c :: t => String.mk (c.toUpper :: t.map Char.toLower)

/-- The fixed category → keyword table of `TopicExtractor.__init__`
(`conversations/services/analysis_service.py`), in insertion order. -/
def topicsTable : List (String × List String) :=
  [("technical", ["code", "programming", "development", "debugging", "error", "bug", "api", "database"]),
   ("general", ["hello", "hi", "how", "what", "why", "when", "where"]),
   ("business", ["project", "deadline", "meeting", "budget", "plan", "strategy", "goal"]),
   ("science", ["research", "study", "experiment", "data", "analysis", "result", "theory"])]

/-- Stable insertion of a scored category into a list sorted by score
descending: the new entry goes after all entries with a score ≥ its own,
matching Python's stable `sorted(..., reverse=True)`. -/
def insertDesc (p : String × Nat) : List (String × Nat) → List (String × Nat)
  | [] => [p]
  | q :: t => if q.2 ≥ p.2 then q :: insertDesc p t else p :: q :: t

/-- Stable sort by score descending (ties keep table insertion order). -/
def sortDesc (l : List (String × Nat)) : List (String × Nat) :=
  l.foldl (fun acc p => insertDesc p acc) []

/-- Result record of `TopicExtractor.extract_topics`. -/
structure TopicResult where
  primary_topic : String
  secondary_topics : List String
  keywords : List String
  category : String
  confidence : ℚ
deriving DecidableEq

/-- The `topic_scores` dict of `TopicExtractor.extract_topics`: each table
category paired with the number of its keywords occurring as substrings of
the lower-cased text, keeping only categories with a positive score, in
table insertion order. -/
def topicScores (text : List Char) : List (String × Nat) :=
  topicsTable.filterMap (fun ck =>
    let score := (ck.2.filter (fun kw => containsSub (pyLower text) kw.toList)).length
    if 0 < score then some (ck.1, score) else none)

/-- Embedding of `TopicExtractor.extract_topics`: score each category by the
number of its table keywords occurring as substrings of the lower-cased
text; with no positive score return the fixed "general" result; otherwise
sort scores descending (stable), take the head as primary, the next
`top_k - 1` as secondary, keywords = the primary category's table keywords
occurring in the text, confidence = `min(top_score / 10, 1.0)`. -/
def extract_topics (text : List Char) (top_k : Nat) : TopicResult :=
  match sortDesc (topicScores text) with
  | [] =>
    { primary_topic := "general", secondary_topics := [], keywords := [],
      category := "General", confidence := 3/10 }
  | top :: rest =>
    { primary_topic := top.1
      secondary_topics := if rest.isEmpty then [] else (rest.take (top_k - 1)).map Prod.fst
      keywords := ((topicsTable.lookup top.1).getD []).filter
        (fun kw => containsSub (pyLower text) kw.toList)
      category := pyCapitalize top.1
      confidence := min ((top.2 : ℚ) / 10) 1 }

/-- The confidence value dictated by the extraction algorithm:
`min(top_score / 10, 1.0)` when some category scores positively, the fixed
0.3 otherwise. -/
def specConfidence (text : List Char) : ℚ :=
  match sortDesc (topicScores text) with
  | [] => 3/10
  | top :: _ => min ((top.2 : ℚ) / 10) 1

/-- Python `text.lower()` on a Lean `String`. -/
def pyLowerStr (s : String) : String :=
  String.mk (pyLower s.toList)

/-- Result record of `SentimentAnalyzer.analyze`: `label` is the raw model
label key of the returned dict, `sentiment` the categorical sentiment label
in {positive, neutral, negative}, `sentiment_score` the signed score (absent
in the degraded branches, which do not put that key in the dict). -/
structure SentimentResult where
  label : String
  score : ℚ
  sentiment : String
  sentiment_score : Option ℚ
  available : Bool

/-- State of the underlying HuggingFace pipeline: `absent` models both
"transformers not installed" and "model failed to load" (`self.pipeline`
is `None`); `loaded run` models a loaded classifier that either returns a
raw (label, confidence) pair or raises. -/
inductive SentimentPipeline where
  | absent
  | loaded (run : List Char → Except String (String × ℚ))

/-- Embedding of `SentimentAnalyzer.analyze`
(`conversations/services/analysis_service.py`): degraded branches return
neutral defaults with `available = false`; a successful classification maps
positive → +confidence, negative → −confidence, anything else → 0.0. -/
def analyze (st : SentimentPipeline) (text : List Char) : SentimentResult :=
  match st with
  | .absent =>
    { label := "NEUTRAL", score := 0, sentiment := "neutral",
      sentiment_score := none, available := false }
  | .loaded run =>
    match run (text.take 512) with
    | .error _ =>
      { label := "ERROR", score := 0, sentiment := "neutral",
        sentiment_score := none, available := false }
    | .ok (rawLabel, score) =>
      if pyLowerStr rawLabel = "positive" then
        { label := rawLabel, score := score, sentiment := "positive",
          sentiment_score := some score, available := true }
      else if pyLowerStr rawLabel = "negative" then
        { label := rawLabel, score := score, sentiment := "negative",
          sentiment_score := some (-score), available := true }
      else
        { label := rawLabel, score := score, sentiment := "neutral",
          sentiment_score := some 0, available := true }

/-- The underlying model is unavailable for this input: either the pipeline
was never loaded, or running it on (the first 512 characters of) the text
raises. -/
def modelUnavailableOn (st : SentimentPipeline) (text : List Char) : Prop :=
  match st with
  | .absent => True
  | .loaded run => ∃ e, run (text.take 512) = .error e

/-- Body of an HTTP response from the chat-completion endpoint: `malformed`
models a body on which `response.json()` raises, `parsed content` a JSON
body where `content` is `choices[0].message.content` when all expected
fields are present and `none` when any of them is missing. -/
inductive ChatBody where
  | malformed (msg : String)
  | parsed (content : Option String)
deriving DecidableEq

/-- Outcome of the `requests.post` call in `LMStudioService.chat`. -/
inductive HttpOutcome where
  | response (status : Nat) (body : ChatBody)
  | timeout
  | connectionError
  | requestExc (msg : String)
  | otherExc (msg : String)
deriving DecidableEq

/-- Configuration of `LMStudioService` (`conversations/services/ai_service.py`). -/
structure LMStudioService where
  api_url : String
deriving DecidableEq

/-- Default `api_url` used by `ConversationViewSet.send_message`. -/
def defaultApiUrl : String := "http://192.168.229.1:1234"

/-- The fixed request timeout (`self.request_timeout = 120` seconds). -/
def requestTimeout : Nat := 120

/-- Message of the `requests.HTTPError` raised by `raise_for_status()` for
a 4xx status not handled earlier. -/
def httpErrorMessage (status : Nat) : String :=
  toString status ++ " Client Error"

/-- Embedding of `LMStudioService.chat`: maps every outcome of the HTTP
call to the returned response text.  All failure handling is internal: the
function is total and never propagates an exception. -/
def chat (svc : LMStudioService) (outcome : HttpOutcome) : String :=
  match outcome with
  | .response status body =>
    if status = 400 then "Error: Invalid request to AI service. Please try again."
    else if 500 ≤ status then "Error: AI service is experiencing issues. Please try again."
    else if 400 ≤ status then "Error: Request failed - " ++ httpErrorMessage status
    else
      match body with
      | .malformed _ => "Error: Invalid response format from AI service"
      | .parsed none => "Sorry, I couldn\x27t generate a response. Please try again."
      | .parsed (some s) =>
        if pyStripStr s = "" then "Sorry, I couldn\x27t generate a response. Please try again."
        else pyStripStr s
  | .timeout =>
    "⏱️ AI service is slow. Please wait and try again (timeout after " ++
      toString requestTimeout ++ "s)"
  | .connectionError =>
    "❌ Cannot connect to AI service. Is LM Studio running at " ++ svc.api_url ++ "?"
  | .requestExc msg => "Error: Request failed - " ++ msg
  | .otherExc msg => "Error: " ++ msg

/-- Message sender, `Message.SENDER_CHOICES` in `conversations/models.py`. -/
inductive Sender where
  | user
  | ai
  | system
deriving DecidableEq

/-- The declared `Message.STATUS_CHOICES` of `conversations/models.py`. -/
def STATUS_CHOICES : List String := ["sent", "delivered", "failed", "pending"]

/-- Persisted `Message` row (the fields the turn pipeline reads or writes).
`created_at` is the `auto_now_add` timestamp, modelled as the value of the
logical clock at insertion. -/
structure Msg where
  id : Nat
  sender : Sender
  content : String
  status : String
  sentiment_score : ℚ
  created_at : Nat
deriving DecidableEq

/-- Derived `Conversation` fields maintained by the pipeline. -/
structure Conv where
  message_count : Nat
  average_sentiment : ℚ
  last_message_at : Option Nat
deriving DecidableEq

/-- State of one conversation and its messages.  `msgs` is kept in insertion
order, which coincides with `created_at` ascending; `clock` is the next
value `timezone.now()` will return — every call to `now()` advances it, so
distinct calls yield strictly increasing timestamps. -/
structure DB where
  conv : Conv
  msgs : List Msg
  clock : Nat
deriving DecidableEq

/-- Fresh conversation: field defaults of the `Conversation` model. -/
def DB.init : DB :=
  { conv := { message_count := 0, average_sentiment := 0, last_message_at := none },
    msgs := [], clock := 0 }

/-- Mean of a list of rationals (Django `Avg`; only applied to non-empty
lists by the code below). -/
def ratMean (l : List ℚ) : ℚ := l.sum / (l.length : ℚ)

/-- The queryset `conversation.messages.filter(sender='user').exclude(sentiment_score=0.0)`
of the `update_conversation_sentiment` signal handler. -/
def analyzedUser : List Msg → List Msg
  | [] => []
  | m :: t =>
    if m.sender = Sender.user ∧ m.sentiment_score ≠ 0 then m :: analyzedUser t
    else analyzedUser t

/-- Embedding of the `update_conversation_sentiment` post-save signal
handler (`conversations/models.py`): only when a *user* message was just
*created*, and only when at least one analyzed user message exists, is
`average_sentiment` rewritten to the mean; otherwise the stored value is
left untouched. -/
def update_conversation_sentiment (created : Bool) (sdr : Sender) (c : Conv) (msgs : List Msg) : Conv :=
  if created = true ∧ sdr = Sender.user then
    if analyzedUser msgs = [] then c
    else { c with average_sentiment := ratMean ((analyzedUser msgs).map Msg.sentiment_score) }
  else c

/-- The aggregate updates performed around a `Message.save()`: the post-save
signal may rewrite `average_sentiment`, then `Message.save` itself sets
`message_count = conversation.messages.count()` and
`last_message_at = timezone.now()` (one clock tick). -/
def recomputeAggregates (db : DB) (created : Bool) (sdr : Sender) : DB :=
  let c1 := update_conversation_sentiment created sdr db.conv db.msgs
  { db with
    conv := { c1 with message_count := db.msgs.length, last_message_at := some db.clock },
    clock := db.clock + 1 }

/-- The `Message` row inserted by `Message.objects.create(...)`: fresh id,
`created_at` stamped with the current clock. -/
def newMsg (db : DB) (sdr : Sender) (content statusv : String) (sscore : ℚ) : Msg :=
  { id := db.msgs.length, sender := sdr, content := content,
    status := statusv, sentiment_score := sscore, created_at := db.clock }

/-- Embedding of `Message.objects.create(...)` / `Message.save`
(`conversations/models.py`): the row is inserted with `created_at` equal to
the current clock, then the conversation aggregates are recomputed at the
next clock tick. -/
def messageCreate (db : DB) (sdr : Sender) (content statusv : String) (sscore : ℚ) : DB × Msg :=
  let m := newMsg db sdr content statusv sscore
  let db1 : DB := { db with msgs := db.msgs ++ [m], clock := db.clock + 1 }
  (recomputeAggregates db1 true sdr, m)

/-- STEP 3 of `ConversationViewSet.send_message`:
`conversation.last_message_at = timezone.now(); conversation.save()`.
(The other effects of `Conversation.save` — archive flag and share token —
concern fields outside this model.) -/
def convTouch (db : DB) : DB :=
  { db with
    conv := { db.conv with last_message_at := some db.clock },
    clock := db.clock + 1 }

/-- One `{role, content}` entry of the chat-completion request. -/
structure ChatMsg where
  role : String
  content : String
deriving DecidableEq

/-- Embedding of the context assembly of `ConversationViewSet.send_message`
(views.py lines 107–125): all conversation messages except the just-created
user message, ordered by `created_at` ascending, sliced with `[:3]` — i.e.
the *first* three — mapped to roles (`user` ↦ "user", anything else ↦
"assistant"), with the new user message appended last. -/
def build_context (msgs : List Msg) (userMsgId : Nat) (userContent : String) : List ChatMsg :=
  let previous := (msgs.filter (fun m => m.id ≠ userMsgId)).take 3
  previous.map (fun m =>
    { role := if m.sender = Sender.user then "user" else "assistant", content := m.content })
    ++ [{ role := "user", content := userContent }]

/-- How the AI block of `send_message` terminates: either the
`ai_service.chat(...)` call returns (with some HTTP outcome handled
internally), or something in the block raises (e.g. the import fails). -/
inductive AICallOutcome where
  | returns (o : HttpOutcome)
  | raises (msg : String)

/-- What `send_message` hands back to the HTTP layer. -/
structure TurnResult where
  accepted : Bool
  user_message : Option Msg
  ai_message : Option Msg
  context_sent : Option (List ChatMsg)

/-- Embedding of `ConversationViewSet.send_message`
(`conversations/views.py`): trim the raw content and reject if empty;
persist the user message (sender `user`, default status "sent"); build the
context and call the AI service — a returned text is stored as an AI
message with status "completed", while an exception from the block is
caught and stored as an AI message with status "error" and explanatory
content; finally touch the conversation timestamp.  `context_sent` exposes
the context handed to `chat` (absent when the block raised or the turn was
rejected). -/
def send_message (db : DB) (raw : String) (svc : LMStudioService) (call : AICallOutcome) :
    DB × TurnResult :=
  if pyStripStr raw = "" then
    (db, { accepted := false, user_message := none, ai_message := none, context_sent := none })
  else
    let r1 := messageCreate db Sender.user (pyStripStr raw) "sent" 0
    match call with
    | .returns outcome =>
      let context := build_context r1.1.msgs r1.2.id (pyStripStr raw)
      let r2 := messageCreate r1.1 Sender.ai (chat svc outcome) "completed" 0
      (convTouch r2.1,
       { accepted := true, user_message := some r1.2, ai_message := some r2.2,
         context_sent := some context })
    | .raises msg =>
      let r2 := messageCreate r1.1 Sender.ai
        ("I\x27m having trouble responding right now. Error: " ++ msg) "error" 0
      (convTouch r2.1,
       { accepted := true, user_message := some r1.2, ai_message := some r2.2,
         context_sent := none })

/-- States of one conversation reachable through the modelled operations:
message insertion (the ORM `create` used by the views, the admin and the
tests), the timestamp touch, and whole turns. -/
inductive Reachable : DB → Prop where
  | init : Reachable DB.init
  | create (db : DB) (sdr : Sender) (content statusv : String) (sscore : ℚ) :
      Reachable db → Reachable (messageCreate db sdr content statusv sscore).1
  | touch (db : DB) : Reachable db → Reachable (convTouch db)
  | turn (db : DB) (raw : String) (svc : LMStudioService) (call : AICallOutcome) :
      Reachable db → Reachable (send_message db raw svc call).1

/-- A conversation that already holds four messages `m1..m4` (user, ai,
user, ai), built through the modelled pipeline operations. -/
def fourMsgDB : DB :=
  (messageCreate
    (messageCreate
      (messageCreate
        (messageCreate DB.init Sender.user "m1" "sent" 0).1
        Sender.ai "m2" "completed" 0).1
      Sender.user "m3" "sent" 0).1
    Sender.ai "m4" "completed" 0).1

/-- The spec scenario: three user messages with sentiment scores
0.8, −0.2 and 0.0 (unanalyzed). -/
def scenarioDB : DB :=
  (messageCreate
    (messageCreate
      (messageCreate DB.init Sender.user "great" "sent" (4/5)).1
      Sender.user "meh" "sent" (-1/5)).1
    Sender.user "unanalyzed" "sent" 0).1

/-- The sentiment aggregate rule: the stored `average_sentiment` equals the
mean of `sentiment_score` over user messages with a non-zero score, and 0.0
when no such message exists. -/
def sentimentInvariant (db : DB) : Prop :=
  db.conv.average_sentiment =
    if analyzedUser db.msgs = [] then 0
    else ratMean ((analyzedUser db.msgs).map Msg.sentiment_score)

/-- Maximum `created_at` over a message list (`none` when empty). -/
def maxCreatedAt : List Msg → Option Nat
  | [] => none
  | m :: t =>
    match maxCreatedAt t with
    | none => some m.created_at
    | some v => some (max m.created_at v)

/-- Order on optional timestamps: an unset timestamp precedes everything,
a set timestamp never becomes unset. -/
def optTimeLe : Option Nat → Option Nat → Prop
  | none, _ => True
  | some _, none => False
  | some a, some b => a ≤ b

/-- Clock/timestamp facts maintained by the pipeline: every stored
`created_at` lies strictly below the clock, so does any stored
`last_message_at`, and whenever a message exists `last_message_at` is set
and bounds every `created_at` from above. -/
def timeInvariant (db : DB) : Prop :=
  (∀ m ∈ db.msgs, m.created_at < db.clock) ∧
  (∀ t, db.conv.last_message_at = some t → t < db.clock) ∧
  (db.msgs = [] ∨
    ∃ t, db.conv.last_message_at = some t ∧ ∀ m ∈ db.msgs, m.created_at ≤ t)

/-- C10 counterexample: `sanitize_input` strips whitespace *before* removing
null characters, so the input `"a \x00"` sanitizes to `"a "`, which has
trailing whitespace — refuting the claim that the result never has leading
or trailing whitespace. -/
theorem C10_counterexample :
    sanitize_input (PyValue.str ['a', ' ', Char.ofNat 0]) 2000 = ['a', ' '] ∧
    endsWithSpace (sanitize_input (PyValue.str ['a', ' ', Char.ofNat 0]) 2000) = true := by
  decide

/-- C10 (amended): for every input value and configured `max_length`, the
result of `sanitize_input` contains no null characters, has length at most
`max_length`, and every non-string input yields the empty string.  (The
original whitespace conjunct fails because stripping happens before null
removal; see `C10_counterexample`.) -/
theorem C10_amended_theorem (v : PyValue) (n : Nat) :
    (∀ c ∈ sanitize_input v n, c.toNat ≠ 0) ∧
    (sanitize_input v n).length ≤ n ∧
    sanitize_input PyValue.nonStr n = [] := by
  refine ⟨?_, ?_, rfl⟩
  · intro c hc
    cases v with
    | nonStr => simp [sanitize_input] at hc
    | str t =>
      simp only [sanitize_input] at hc
      split at hc
      · have := List.mem_of_mem_take hc
        have := List.of_mem_filter this
        simpa using this
      · have := List.of_mem_filter hc
        simpa using this
  · cases v with
    | nonStr => simp [sanitize_input]
    | str t =>
      simp only [sanitize_input]
      split
      · exact le_trans (List.length_take_le _ _) le_rfl
      · omega

/-- Evaluation of the extractor on the text `"debug api database"`:
"technical" scores 3 (via "bug", "api", "database"), "science" scores 1
(via "data"), every other category scores 0. -/
theorem extract_topics_debug_eval :
    extract_topics ("debug api database").toList 3 =
      { primary_topic := "technical", secondary_topics := ["science"],
        keywords := ["bug", "api", "database"], category := "Technical",
        confidence := min (((3 : Nat) : ℚ) / 10) 1 } := by
  rfl

/-- C8 counterexample: the universal claim fails at two concrete inputs
that both contain the substrings "debug", "api" and "database".  On
`"debug api database"` the keyword `"debug"` is absent from the returned
keywords (the table has `"debugging"` and `"bug"` but not `"debug"`, so
`"debug"` can never be returned).  On the same text extended with the
seven "general" table keywords, "general" outscores "technical" 7 to 3,
so `primary_topic` is `"general"`, not the claimed `"technical"`. -/
theorem C8_counterexample :
    (containsSub (pyLower ("debug api database").toList) ("debug").toList = true ∧
     containsSub (pyLower ("debug api database").toList) ("api").toList = true ∧
     containsSub (pyLower ("debug api database").toList) ("database").toList = true ∧
     "debug" ∉ (extract_topics ("debug api database").toList 3).keywords) ∧
    (containsSub (pyLower ("debug api database hello hi how what why when where").toList)
        ("debug").toList = true ∧
     containsSub (pyLower ("debug api database hello hi how what why when where").toList)
        ("api").toList = true ∧
     containsSub (pyLower ("debug api database hello hi how what why when where").toList)
        ("database").toList = true ∧
     (extract_topics ("debug api database hello hi how what why when where").toList 3).primary_topic =
        "general" ∧
     (extract_topics ("debug api database hello hi how what why when where").toList 3).primary_topic ≠
        "technical") := by
  constructor
  · refine ⟨by decide, by decide, by decide, ?_⟩
    rw [extract_topics_debug_eval]
    decide
  · exact ⟨by decide, by decide, by decide, by decide, by decide⟩

/-- Inserting into a sorted score list never produces the empty list. -/
theorem insertDesc_ne_nil (p : String × Nat) (l : List (String × Nat)) :
    insertDesc p l ≠ [] := by
  cases l with
  | nil => simp [insertDesc]
  | cons q t =>
    unfold insertDesc
    split <;> simp

/-- The fold underlying `sortDesc` returns `[]` only from `[]` inputs. -/
theorem sortDesc_fold_eq_nil (l : List (String × Nat)) (acc : List (String × Nat))
    (h : l.foldl (fun acc p => insertDesc p acc) acc = []) : acc = [] ∧ l = [] := by
  induction l generalizing acc with
  | nil => exact ⟨h, rfl⟩
  | cons a t ih =>
    have := ih (insertDesc a acc) h
    exact absurd this.1 (insertDesc_ne_nil a acc)

/-- `sortDesc` of a score list is empty only when the list is empty. -/
theorem sortDesc_eq_nil (l : List (String × Nat)) (h : sortDesc l = []) : l = [] :=
  (sortDesc_fold_eq_nil l [] h).2

/-- When no category scores positively, in particular none of the "general"
keywords occurs in the lower-cased text. -/
theorem topicScores_nil_general (text : List Char) (h : topicScores text = []) :
    (["hello", "hi", "how", "what", "why", "when", "where"].filter
      (fun kw => containsSub (pyLower text) kw.toList)) = [] := by
  have hg := List.filterMap_eq_nil_iff.mp h
    ("general", ["hello", "hi", "how", "what", "why", "when", "where"])
    (by simp [topicsTable])
  dsimp only at hg
  by_cases hp : 0 < ((["hello", "hi", "how", "what", "why", "when", "where"].filter
      (fun kw => containsSub (pyLower text) kw.toList)).length)
  · rw [if_pos hp] at hg
    cases hg
  · have hlen : ((["hello", "hi", "how", "what", "why", "when", "where"].filter
        (fun kw => containsSub (pyLower text) kw.toList)).length) = 0 := by omega
    exact List.length_eq_zero.mp hlen

/-- C8 (amended): on the text `"debug api database"` the extractor returns
`primary_topic = "technical"` with positive confidence and keywords
`["bug", "api", "database"]` — "api" and "database" are present but "debug"
is matched only through the table keyword "bug".  In general, for every
input text the returned keywords are exactly the primary category's table
keywords that literally occur in the lower-cased text, and the confidence
is `min(top_score / 10, 1.0)` when some category scores positively and the
fixed 0.3 otherwise. -/
theorem C8_amended_theorem (text : List Char) (k : Nat) :
    (extract_topics ("debug api database").toList 3).primary_topic = "technical" ∧
    0 < (extract_topics ("debug api database").toList 3).confidence ∧
    (extract_topics ("debug api database").toList 3).keywords = ["bug", "api", "database"] ∧
    (extract_topics text k).keywords =
      ((topicsTable.lookup (extract_topics text k).primary_topic).getD []).filter
        (fun kw => containsSub (pyLower text) kw.toList) ∧
    (extract_topics text k).confidence = specConfidence text := by
  refine ⟨?_, ?_, ?_, ?_, ?_⟩
  · rw [extract_topics_debug_eval]
  · rw [extract_topics_debug_eval]
    norm_num [min_def]
  · rw [extract_topics_debug_eval]
  · cases h : sortDesc (topicScores text) with
    | nil =>
      have hts := sortDesc_eq_nil _ h
      simp only [extract_topics, h]
      rw [show (topicsTable.lookup "general").getD [] =
        ["hello", "hi", "how", "what", "why", "when", "where"] from rfl]
      exact (topicScores_nil_general text hts).symm
    | cons top rest =>
      simp only [extract_topics, h]
  · cases h : sortDesc (topicScores text) with
    | nil => simp only [extract_topics, specConfidence, h]
    | cons top rest => simp only [extract_topics, specConfidence, h]

/-- C9: whenever the underlying model is unavailable — not installed, failed
to load, or erroring on the given input — `analyze` returns the categorical
sentiment label "neutral", score 0.0 and `available = false`; `analyze` is a
total function, so the degradation is never surfaced as an exception. -/
theorem C9_theorem (st : SentimentPipeline) (text : List Char)
    (h : modelUnavailableOn st text) :
    (analyze st text).sentiment = "neutral" ∧
    (analyze st text).score = 0 ∧
    (analyze st text).available = false := by
  cases st with
  | absent => exact ⟨rfl, rfl, rfl⟩
  | loaded run =>
    obtain ⟨e, he⟩ := h
    simp [analyze, he]

/-- C9 witness: the unavailable analyzer on the empty string, and an
erroring pipeline on "hi", both degrade to neutral defaults. -/
theorem C9_witness :
    ((analyze SentimentPipeline.absent []).sentiment = "neutral" ∧
      (analyze SentimentPipeline.absent []).score = 0 ∧
      (analyze SentimentPipeline.absent []).available = false) ∧
    ((analyze (SentimentPipeline.loaded (fun _ => Except.error "model error")) ("hi").toList).sentiment = "neutral" ∧
      (analyze (SentimentPipeline.loaded (fun _ => Except.error "model error")) ("hi").toList).score = 0 ∧
      (analyze (SentimentPipeline.loaded (fun _ => Except.error "model error")) ("hi").toList).available = false) :=
  ⟨C9_theorem SentimentPipeline.absent [] True.intro,
   C9_theorem (SentimentPipeline.loaded (fun _ => Except.error "model error")) ("hi").toList
     ⟨"model error", rfl⟩⟩

/-- C3 counterexample: a 2xx response whose body fails JSON parsing takes
the dedicated `except ValueError` branch, whose text neither includes the
exception message (refuting the "any other exception" row) nor equals the
generic couldn't-generate text (refuting the "missing expected fields"
row): the claim's seven-row table misses this branch. -/
theorem C3_counterexample :
    chat { api_url := defaultApiUrl }
        (HttpOutcome.response 200 (ChatBody.malformed "boom")) =
      "Error: Invalid response format from AI service" ∧
    containsSub ("Error: Invalid response format from AI service").toList ("boom").toList = false ∧
    "Error: Invalid response format from AI service" ≠
      "Sorry, I couldn\x27t generate a response. Please try again." :=
  ⟨rfl, by decide, by decide⟩

/-- C3 (amended): the response mapping with the additional row for a body
that fails JSON parsing (fixed invalid-response-format text, no exception
message), and with 4xx statuses other than 400 surfacing through the
raised-`HTTPError` request-failure text.  Each row is stated as an equation
on `chat`: 2xx with extractable text yields that text trimmed (or the
generic couldn't-generate text when blank), 2xx with missing fields yields
the couldn't-generate text, 400 the invalid-request text, ≥500 the
service-issues text, a connection error names the configured endpoint URL,
a timeout names the 120s timeout, and other exceptions are echoed. -/
theorem C3_amended_theorem (svc : LMStudioService) (s msg : String) (k : Nat) (body : ChatBody) :
    (chat svc (HttpOutcome.response 200 (ChatBody.parsed (some s))) =
      if pyStripStr s = "" then "Sorry, I couldn\x27t generate a response. Please try again."
      else pyStripStr s) ∧
    (chat svc (HttpOutcome.response 200 (ChatBody.parsed none)) =
      "Sorry, I couldn\x27t generate a response. Please try again.") ∧
    (chat svc (HttpOutcome.response 200 (ChatBody.malformed msg)) =
      "Error: Invalid response format from AI service") ∧
    (chat svc (HttpOutcome.response 400 body) =
      "Error: Invalid request to AI service. Please try again.") ∧
    (chat svc (HttpOutcome.response (500 + k) body) =
      "Error: AI service is experiencing issues. Please try again.") ∧
    (chat svc (HttpOutcome.response 404 body) =
      "Error: Request failed - " ++ httpErrorMessage 404) ∧
    (chat svc HttpOutcome.connectionError =
      "❌ Cannot connect to AI service. Is LM Studio running at " ++ svc.api_url ++ "?") ∧
    (chat svc HttpOutcome.timeout =
      "⏱️ AI service is slow. Please wait and try again (timeout after " ++
        toString requestTimeout ++ "s)") ∧
    (chat svc (HttpOutcome.requestExc msg) = "Error: Request failed - " ++ msg) ∧
    (chat svc (HttpOutcome.otherExc msg) = "Error: " ++ msg) := by
  refine ⟨rfl, rfl, rfl, ?_, ?_, ?_, rfl, rfl, rfl, rfl⟩
  · cases body <;> rfl
  · have h1 : ¬ (500 + k = 400) := by omega
    have h2 : 500 ≤ 500 + k := by omega
    simp [chat, h1, h2]
  · cases body <;> rfl

/-- C1: the context actually sent excludes the new user message and then
takes the *first* three of the remaining messages in `created_at` order —
the three *oldest* — contrary to the claim (and the source's own comment
"only last 3"), which require the three most recent.  On a conversation
with four prior messages the context is `[m1, m2, m3, new]`, not the
claimed `[m2, m3, m4, new]`. -/
theorem C1_theorem :
    (send_message fourMsgDB "hello" { api_url := defaultApiUrl }
        (AICallOutcome.returns HttpOutcome.connectionError)).2.context_sent =
      some [{ role := "user", content := "m1" }, { role := "assistant", content := "m2" },
            { role := "user", content := "m3" }, { role := "user", content := "hello" }] ∧
    (send_message fourMsgDB "hello" { api_url := defaultApiUrl }
        (AICallOutcome.returns HttpOutcome.connectionError)).2.context_sent ≠
      some [{ role := "assistant", content := "m2" }, { role := "user", content := "m3" },
            { role := "assistant", content := "m4" }, { role := "user", content := "hello" }] := by
  decide

/-- C2: at the failing input (accepted text, unreachable endpoint) the turn
does return a response object with the user message persisted as "sent"
and a human-readable AI error text, but the AI message is stored with
status "completed" — and with status "error" when the AI block raises —
never with the claimed status "failed"; neither stored value is even among
the model's declared `STATUS_CHOICES`. -/
theorem C2_theorem :
    ((send_message DB.init "hello" { api_url := defaultApiUrl }
        (AICallOutcome.returns HttpOutcome.connectionError)).2.user_message.map Msg.status =
      some "sent") ∧
    ((send_message DB.init "hello" { api_url := defaultApiUrl }
        (AICallOutcome.returns HttpOutcome.connectionError)).2.ai_message.map Msg.status =
      some "completed") ∧
    ((send_message DB.init "hello" { api_url := defaultApiUrl }
        (AICallOutcome.returns HttpOutcome.connectionError)).2.ai_message.map Msg.content =
      some ("❌ Cannot connect to AI service. Is LM Studio running at " ++ defaultApiUrl ++ "?")) ∧
    "completed" ∉ STATUS_CHOICES ∧
    ((send_message DB.init "hello" { api_url := defaultApiUrl }
        (AICallOutcome.raises "No module named requests")).2.ai_message.map Msg.status =
      some "error") ∧
    "error" ∉ STATUS_CHOICES := by
  decide

/-- Appending one message extends the analyzed-user sublist by that message
exactly when it is a user message with a non-zero score. -/
theorem analyzedUser_append (msgs : List Msg) (m : Msg) :
    analyzedUser (msgs ++ [m]) =
      analyzedUser msgs ++
        (if m.sender = Sender.user ∧ m.sentiment_score ≠ 0 then [m] else []) := by
  induction msgs with
  | nil =>
    simp [analyzedUser]
  | cons a t ih =>
    by_cases ha : a.sender = Sender.user ∧ a.sentiment_score ≠ 0
    · simp only [List.cons_append, analyzedUser, if_pos ha, List.append_eq, ih]
    · simp only [List.cons_append, analyzedUser, if_neg ha, List.append_eq, ih]

/-- Projection facts of `messageCreate`: the inserted row set and the
resulting average sentiment. -/
theorem messageCreate_avg (db : DB) (sdr : Sender) (content statusv : String) (sscore : ℚ) :
    (messageCreate db sdr content statusv sscore).1.conv.average_sentiment =
      (update_conversation_sentiment true sdr db.conv
        (db.msgs ++ [newMsg db sdr content statusv sscore])).average_sentiment := rfl

/-- The sentiment aggregate rule is preserved by message insertion. -/
theorem sentimentInvariant_create (db : DB) (sdr : Sender) (content statusv : String)
    (sscore : ℚ) (h : sentimentInvariant db) :
    sentimentInvariant (messageCreate db sdr content statusv sscore).1 := by
  have hmsgs : (messageCreate db sdr content statusv sscore).1.msgs =
      db.msgs ++ [newMsg db sdr content statusv sscore] := rfl
  unfold sentimentInvariant
  rw [hmsgs, messageCreate_avg]
  unfold update_conversation_sentiment
  by_cases hs : sdr = Sender.user
  · rw [if_pos ⟨rfl, hs⟩]
    by_cases he : analyzedUser (db.msgs ++ [newMsg db sdr content statusv sscore]) = []
    · rw [if_pos he, he, if_pos rfl]
      have hbase : analyzedUser db.msgs = [] := by
        have happ := analyzedUser_append db.msgs (newMsg db sdr content statusv sscore)
        rw [he] at happ
        exact (List.append_eq_nil.mp happ.symm).1
      rw [h, if_pos hbase]
    · rw [if_neg he, if_neg he]
  · rw [if_neg (fun hc => hs hc.2)]
    have hsame : analyzedUser (db.msgs ++ [newMsg db sdr content statusv sscore]) =
        analyzedUser db.msgs := by
      rw [analyzedUser_append]
      rw [if_neg (fun hc => hs hc.1), List.append_nil]
    rw [hsame]
    exact h

/-- The sentiment aggregate rule is untouched by the timestamp update. -/
theorem sentimentInvariant_touch (db : DB) (h : sentimentInvariant db) :
    sentimentInvariant (convTouch db) := h

/-- The sentiment aggregate rule is preserved by a whole turn. -/
theorem sentimentInvariant_turn (db : DB) (raw : String) (svc : LMStudioService)
    (call : AICallOutcome) (h : sentimentInvariant db) :
    sentimentInvariant (send_message db raw svc call).1 := by
  unfold send_message
  split
  · exact h
  · cases call with
    | returns o =>
      exact sentimentInvariant_touch _
        (sentimentInvariant_create _ _ _ _ _ (sentimentInvariant_create _ _ _ _ _ h))
    | raises msg =>
      exact sentimentInvariant_touch _
        (sentimentInvariant_create _ _ _ _ _ (sentimentInvariant_create _ _ _ _ _ h))

/-- Every reachable conversation state satisfies the sentiment rule. -/
theorem sentimentInvariant_reachable (db : DB) (h : Reachable db) : sentimentInvariant db := by
  induction h with
  | init => rfl
  | create db sdr c st sc _ ih => exact sentimentInvariant_create db sdr c st sc ih
  | touch db _ ih => exact sentimentInvariant_touch db ih
  | turn db raw svc call _ ih => exact sentimentInvariant_turn db raw svc call ih

/-- C4: in every reachable conversation state, `average_sentiment` equals
the mean of `sentiment_score` over user messages with non-zero score and
0.0 when no such message exists; in particular, three user messages scored
0.8, −0.2 and 0.0 yield 0.3 (the unanalyzed 0.0 excluded). -/
theorem C4_theorem (db : DB) (h : Reachable db) :
    sentimentInvariant db ∧ scenarioDB.conv.average_sentiment = 3/10 :=
  ⟨sentimentInvariant_reachable db h, by
    simp only [scenarioDB, DB.init, messageCreate, newMsg, recomputeAggregates,
      update_conversation_sentiment, analyzedUser, ratMean]
    norm_num
    rw [if_neg (List.cons_ne_nil _ _)]⟩

/-- C4 witness: the scenario database is reachable and evaluates as the
theorem states. -/
theorem C4_witness :
    Reachable scenarioDB ∧
      (sentimentInvariant scenarioDB ∧ scenarioDB.conv.average_sentiment = 3/10) := by
  have hr : Reachable scenarioDB :=
    Reachable.create _ _ _ _ _
      (Reachable.create _ _ _ _ _ (Reachable.create _ _ _ _ _ Reachable.init))
  exact ⟨hr, C4_theorem scenarioDB hr⟩

/-- C5: after every accepted turn, the stored `message_count` equals the
number of messages persisted for this conversation (deleted messages are
gone from the row set, so this is the count of non-deleted messages). -/
theorem C5_theorem (db : DB) (raw : String) (svc : LMStudioService) (call : AICallOutcome)
    (h : ¬ pyStripStr raw = "") :
    ((send_message db raw svc call).1).conv.message_count =
      ((send_message db raw svc call).1).msgs.length := by
  unfold send_message
  rw [if_neg h]
  cases call <;> rfl

/-- C5 witness: a concrete accepted turn on a fresh conversation. -/
theorem C5_witness :
    ¬ pyStripStr "hello" = "" ∧
    ((send_message DB.init "hello" { api_url := defaultApiUrl }
        (AICallOutcome.returns HttpOutcome.timeout)).1).conv.message_count =
      ((send_message DB.init "hello" { api_url := defaultApiUrl }
        (AICallOutcome.returns HttpOutcome.timeout)).1).msgs.length :=
  ⟨by decide, C5_theorem DB.init "hello" { api_url := defaultApiUrl }
    (AICallOutcome.returns HttpOutcome.timeout) (by decide)⟩

/-- `optTimeLe` is reflexive. -/
theorem optTimeLe_refl (a : Option Nat) : optTimeLe a a := by
  cases a <;> simp [optTimeLe]

/-- `optTimeLe` is transitive. -/
theorem optTimeLe_trans {a b c : Option Nat} (h1 : optTimeLe a b) (h2 : optTimeLe b c) :
    optTimeLe a c := by
  cases a with
  | none => trivial
  | some x =>
    cases b with
    | none => exact absurd h1 (by simp [optTimeLe])
    | some y =>
      cases c with
      | none => exact absurd h2 (by simp [optTimeLe])
      | some z => exact le_trans (α := ℕ) h1 h2

/-- The clock facts are preserved by message insertion. -/
theorem timeInvariant_create (db : DB) (sdr : Sender) (content statusv : String)
    (sscore : ℚ) (h : timeInvariant db) :
    timeInvariant (messageCreate db sdr content statusv sscore).1 := by
  obtain ⟨h1, h2, h3⟩ := h
  refine ⟨?_, ?_, ?_⟩
  · intro m hm
    rcases List.mem_append.mp hm with hm | hm
    · have := h1 m hm
      show m.created_at < db.clock + 2
      omega
    · rw [List.mem_singleton] at hm
      subst hm
      show db.clock < db.clock + 2
      omega
  · intro t ht
    have : some (db.clock + 1) = some t := ht
    have := Option.some.inj this
    show t < db.clock + 2
    omega
  · right
    refine ⟨db.clock + 1, rfl, ?_⟩
    intro m hm
    rcases List.mem_append.mp hm with hm | hm
    · have := h1 m hm
      omega
    · rw [List.mem_singleton] at hm
      subst hm
      show db.clock ≤ db.clock + 1
      omega

/-- The clock facts are preserved by the timestamp touch. -/
theorem timeInvariant_touch (db : DB) (h : timeInvariant db) :
    timeInvariant (convTouch db) := by
  obtain ⟨h1, h2, h3⟩ := h
  refine ⟨?_, ?_, ?_⟩
  · intro m hm
    have := h1 m hm
    show m.created_at < db.clock + 1
    omega
  · intro t ht
    have : some db.clock = some t := ht
    have := Option.some.inj this
    show t < db.clock + 1
    omega
  · rcases h3 with h3 | ⟨t, ht, hb⟩
    · exact Or.inl h3
    · right
      refine ⟨db.clock, rfl, ?_⟩
      intro m hm
      have := h1 m hm
      omega

/-- The clock facts are preserved by a whole turn. -/
theorem timeInvariant_turn (db : DB) (raw : String) (svc : LMStudioService)
    (call : AICallOutcome) (h : timeInvariant db) :
    timeInvariant (send_message db raw svc call).1 := by
  unfold send_message
  split
  · exact h
  · cases call with
    | returns o =>
      exact timeInvariant_touch _
        (timeInvariant_create _ _ _ _ _ (timeInvariant_create _ _ _ _ _ h))
    | raises msg =>
      exact timeInvariant_touch _
        (timeInvariant_create _ _ _ _ _ (timeInvariant_create _ _ _ _ _ h))

/-- Every reachable conversation state satisfies the clock facts. -/
theorem timeInvariant_reachable (db : DB) (h : Reachable db) : timeInvariant db := by
  induction h with
  | init =>
    refine ⟨?_, ?_, Or.inl rfl⟩
    · intro m hm
      cases hm
    · intro t ht
      cases ht
  | create db sdr c st sc _ ih => exact timeInvariant_create db sdr c st sc ih
  | touch db _ ih => exact timeInvariant_touch db ih
  | turn db raw svc call _ ih => exact timeInvariant_turn db raw svc call ih

/-- A message insertion never moves `last_message_at` backwards. -/
theorem optTimeLe_create (db : DB) (sdr : Sender) (content statusv : String)
    (sscore : ℚ) (h : timeInvariant db) :
    optTimeLe db.conv.last_message_at
      (messageCreate db sdr content statusv sscore).1.conv.last_message_at := by
  cases hl : db.conv.last_message_at with
  | none => trivial
  | some t =>
    have := h.2.1 t hl
    show t ≤ db.clock + 1
    omega

/-- The timestamp touch never moves `last_message_at` backwards. -/
theorem optTimeLe_touch (db : DB) (h : timeInvariant db) :
    optTimeLe db.conv.last_message_at (convTouch db).conv.last_message_at := by
  cases hl : db.conv.last_message_at with
  | none => trivial
  | some t =>
    have := h.2.1 t hl
    show t ≤ db.clock
    omega

/-- C6 counterexample: after one turn on a fresh conversation the stored
`last_message_at` is the clock value of the final `conversation.save()`
(tick 4), while the newest message was created at tick 2 — the field is set
to `timezone.now()` at save time, not to the maximum `created_at`. -/
theorem C6_counterexample :
    (send_message DB.init "hi" { api_url := defaultApiUrl }
        (AICallOutcome.returns HttpOutcome.timeout)).1.conv.last_message_at = some 4 ∧
    maxCreatedAt ((send_message DB.init "hi" { api_url := defaultApiUrl }
        (AICallOutcome.returns HttpOutcome.timeout)).1.msgs) = some 2 ∧
    (send_message DB.init "hi" { api_url := defaultApiUrl }
        (AICallOutcome.returns HttpOutcome.timeout)).1.conv.last_message_at ≠
      maxCreatedAt ((send_message DB.init "hi" { api_url := defaultApiUrl }
        (AICallOutcome.returns HttpOutcome.timeout)).1.msgs) := by
  refine ⟨rfl, rfl, ?_⟩
  decide

/-- C6 (amended): after any turn on a reachable conversation state,
`last_message_at` is set and is an upper bound of `created_at` over all
stored messages (the code writes `timezone.now()`, which is at or after
the newest insertion, rather than `max(created_at)` itself), and
`last_message_at` never decreases across a turn. -/
theorem C6_amended_theorem (db : DB) (h : Reachable db) (raw : String)
    (svc : LMStudioService) (call : AICallOutcome) :
    (∀ m ∈ (send_message db raw svc call).1.msgs,
        ∃ t, (send_message db raw svc call).1.conv.last_message_at = some t ∧
          m.created_at ≤ t) ∧
    optTimeLe db.conv.last_message_at (send_message db raw svc call).1.conv.last_message_at := by
  have hinv := timeInvariant_reachable db h
  have hinv' := timeInvariant_turn db raw svc call hinv
  constructor
  · intro m hm
    rcases hinv'.2.2 with hnil | ⟨t, ht, hb⟩
    · rw [hnil] at hm
      cases hm
    · exact ⟨t, ht, hb m hm⟩
  · unfold send_message
    split
    · exact optTimeLe_refl _
    · cases call with
      | returns o =>
        have i1 := timeInvariant_create db Sender.user (pyStripStr raw) "sent" 0 hinv
        have s1 := optTimeLe_create db Sender.user (pyStripStr raw) "sent" 0 hinv
        have i2 := timeInvariant_create _ Sender.ai (chat svc o) "completed" 0 i1
        have s2 := optTimeLe_create _ Sender.ai (chat svc o) "completed" 0 i1
        have s3 := optTimeLe_touch _ i2
        exact optTimeLe_trans (optTimeLe_trans s1 s2) s3
      | raises msg =>
        have i1 := timeInvariant_create db Sender.user (pyStripStr raw) "sent" 0 hinv
        have s1 := optTimeLe_create db Sender.user (pyStripStr raw) "sent" 0 hinv
        have i2 := timeInvariant_create _ Sender.ai
          ("I\x27m having trouble responding right now. Error: " ++ msg) "error" 0 i1
        have s2 := optTimeLe_create _ Sender.ai
          ("I\x27m having trouble responding right now. Error: " ++ msg) "error" 0 i1
        have s3 := optTimeLe_touch _ i2
        exact optTimeLe_trans (optTimeLe_trans s1 s2) s3

/-- C6 witness: one concrete turn on the fresh conversation. -/
theorem C6_amended_witness :
    (∀ m ∈ (send_message DB.init "hi" { api_url := defaultApiUrl }
        (AICallOutcome.returns HttpOutcome.timeout)).1.msgs,
        ∃ t, (send_message DB.init "hi" { api_url := defaultApiUrl }
          (AICallOutcome.returns HttpOutcome.timeout)).1.conv.last_message_at = some t ∧
          m.created_at ≤ t) ∧
    optTimeLe DB.init.conv.last_message_at
      (send_message DB.init "hi" { api_url := defaultApiUrl }
        (AICallOutcome.returns HttpOutcome.timeout)).1.conv.last_message_at :=
  C6_amended_theorem DB.init Reachable.init "hi" { api_url := defaultApiUrl }
    (AICallOutcome.returns HttpOutcome.timeout)

/-- The sentiment rewrite is stable: feeding it a conversation whose
average already equals its output (on the same message set) reproduces the
same average. -/
theorem update_conversation_sentiment_stable (created : Bool) (sdr : Sender)
    (c c' : Conv) (msgs : List Msg)
    (h : c'.average_sentiment =
      (update_conversation_sentiment created sdr c msgs).average_sentiment) :
    (update_conversation_sentiment created sdr c' msgs).average_sentiment =
      (update_conversation_sentiment created sdr c msgs).average_sentiment := by
  unfold update_conversation_sentiment at h ⊢
  by_cases hc : created = true ∧ sdr = Sender.user
  · by_cases he : analyzedUser msgs = []
    · rw [if_pos hc, if_pos he] at h ⊢
      rw [if_pos hc, if_pos he]
      exact h
    · rw [if_pos hc, if_neg he] at h ⊢
      rw [if_pos hc, if_neg he]
  · rw [if_neg hc] at h ⊢
    rw [if_neg hc]
    exact h

/-- C7 counterexample: running the aggregate update twice in a row on an
unchanged message set yields different `last_message_at` values (each run
stamps its own `timezone.now()`), so the results are not identical. -/
theorem C7_counterexample :
    (recomputeAggregates (recomputeAggregates DB.init true Sender.user)
        true Sender.user).conv.last_message_at ≠
      (recomputeAggregates DB.init true Sender.user).conv.last_message_at := by
  decide

/-- C7 (amended): recomputing the aggregates twice in a row on an unchanged
message set reproduces `message_count` and `average_sentiment` exactly, but
`last_message_at` is stamped with each invocation's own current time — the
first run stores the clock at entry, the second the tick after. -/
theorem C7_amended_theorem (db : DB) (created : Bool) (sdr : Sender) :
    (recomputeAggregates (recomputeAggregates db created sdr) created sdr).conv.message_count =
      (recomputeAggregates db created sdr).conv.message_count ∧
    (recomputeAggregates (recomputeAggregates db created sdr) created sdr).conv.average_sentiment =
      (recomputeAggregates db created sdr).conv.average_sentiment ∧
    (recomputeAggregates db created sdr).conv.last_message_at = some db.clock ∧
    (recomputeAggregates (recomputeAggregates db created sdr) created sdr).conv.last_message_at =
      some (db.clock + 1) ∧
    (recomputeAggregates (recomputeAggregates db created sdr) created sdr).msgs =
      (recomputeAggregates db created sdr).msgs := by
  refine ⟨rfl, ?_, rfl, rfl, rfl⟩
  show (update_conversation_sentiment created sdr
      { update_conversation_sentiment created sdr db.conv db.msgs with
        message_count := db.msgs.length, last_message_at := some db.clock }
      db.msgs).average_sentiment =
    (update_conversation_sentiment created sdr db.conv db.msgs).average_sentiment
  exact update_conversation_sentiment_stable created sdr db.conv _ db.msgs rfl

end ChatPortal
